import Mathlib

/-!
Verification development for the todoai core of the repository: the
three-layer todo-management abstraction (Repository over a Postgres
table, OpenAI-backed Inference Service, and the orchestrating Todo
Service).  Sources embedded here:

  src/src/todoai/models/status.rs
  src/src/todoai/models/priority.rs
  src/src/todoai/models/todo.rs
  src/src/todoai/services/todorepo.rs
  src/src/todoai/services/todoai.rs
  src/src/todoai/controllers/todoservice.rs

Rust functions that can panic are embedded as functions into PResult,
whose panicked constructor models a Rust panic (an unwrap of None or of
Err, or a panic call in a From conversion).  The Postgres store is
embedded as an explicit state (a list of rows plus the id sequence and
the clock); the sqlx calls are embedded as functions of that state, and
each repository method is split into the database action and the
handler that the Rust code applies to the fetch result, so that a
failing fetch (connectivity or constraint failure) can be analysed as
well as the healthy path.
-/

/-- Status enum of src/src/todoai/models/status.rs
(variants Todo, InProgress, Done, Aborted).  The spec names the first
variant Pending; it is the variant with integer code 0. -/
inductive Status where
  | Todo
  | InProgress
  | Done
  | Aborted
deriving DecidableEq

/-- impl Into i16 for Status (status.rs lines 23-32). -/
def Status.toI16 : Status → Int
  | .Todo => 0
  | .InProgress => 1
  | .Done => 2
  | .Aborted => -1

/-- impl From i16 for Status (status.rs lines 11-21); the catch-all arm
panics with Invalid status value, embedded as none. -/
def Status.fromI16 (i : Int) : Option Status :=
  if i = 0 then some .Todo
  else if i = 1 then some .InProgress
  else if i = 2 then some .Done
  else if i = -1 then some .Aborted
  else none

/-- The Rust as-cast of a Status value to i16, as written in the update
query of todorepo.rs (update_todo.status as i16).  An as-cast uses the
declaration-order discriminants (Todo 0, InProgress 1, Done 2,
Aborted 3); it does NOT go through the Into impl, so Aborted casts to 3
although Status.toI16 sends it to -1. -/
def Status.asI16 : Status → Int
  | .Todo => 0
  | .InProgress => 1
  | .Done => 2
  | .Aborted => 3

/-- Priority enum of src/src/todoai/models/priority.rs. -/
inductive Priority where
  | Low
  | Medium
  | High
deriving DecidableEq

/-- impl Into i16 for Priority (priority.rs lines 31-39). -/
def Priority.toI16 : Priority → Int
  | .Low => 0
  | .Medium => 1
  | .High => 2

/-- impl From i16 for Priority (priority.rs lines 10-19); the catch-all
arm panics with Invalid priority value, embedded as none. -/
def Priority.fromI16 (i : Int) : Option Priority :=
  if i = 0 then some .Low
  else if i = 1 then some .Medium
  else if i = 2 then some .High
  else none

/-- impl From String for Priority (priority.rs lines 21-29); any string
other than the three exact variant names panics, embedded as none. -/
def Priority.fromString (s : String) : Option Priority :=
  if s = "Low" then some .Low
  else if s = "Medium" then some .Medium
  else if s = "High" then some .High
  else none

/-- The Rust as-cast of a Priority value to i16 (create_todo.priority
as i16 in todorepo.rs): declaration-order discriminants Low 0, Medium 1,
High 2, which here coincide with Priority.toI16. -/
def Priority.asI16 : Priority → Int
  | .Low => 0
  | .Medium => 1
  | .High => 2

/-- chrono NaiveDateTime, embedded as its calendar fields. -/
structure NaiveDateTime where
  year : Nat
  month : Nat
  day : Nat
  hour : Nat
  minute : Nat
  second : Nat
deriving DecidableEq

/-- pub struct TodoId(pub i64) of todo.rs. -/
structure TodoId where
  val : Int
deriving DecidableEq

/-- pub struct CreateTodo of todo.rs lines 7-14. -/
structure CreateTodo where
  title : String
  description : String
  priority : Priority
  deadline : Option NaiveDateTime
  tags : String
deriving DecidableEq

/-- pub struct UpdateTodo of todo.rs lines 16-24. -/
structure UpdateTodo where
  title : String
  description : String
  status : Status
  priority : Priority
  deadline : Option NaiveDateTime
  tags : String
deriving DecidableEq

/-- pub struct Todo of todo.rs lines 26-37. -/
structure Todo where
  id : TodoId
  title : String
  description : String
  status : Status
  priority : Priority
  created_at : NaiveDateTime
  deadline : Option NaiveDateTime
  tags : String
deriving DecidableEq

/-- Result of running a piece of Rust code that may panic: panicked
models a Rust panic (unwrap of None or Err, or an explicit panic). -/
inductive PResult (α : Type) where
  | ok (val : α)
  | panicked
deriving DecidableEq

/-- Errors a sqlx database call can fail with: RowNotFound is what
fetch_one returns when the query produced no row; connectivity and
constraint model an unreachable store and a violated constraint. -/
inductive DbError where
  | rowNotFound
  | connectivity
  | constraint
deriving DecidableEq

/-- One row of the todos table, with description nullable (the sqlx
record in todorepo.rs has description as an Option) and status and
priority stored as small integer codes. -/
structure Row where
  id : Int
  title : String
  description : Option String
  created_at : NaiveDateTime
  status : Int
  priority : Int
  deadline : Option NaiveDateTime
  tags : String
deriving DecidableEq

/-- The Postgres store backing PostgresTodoRepo: the rows of the todos
table, the id sequence (nextId) and the clock (now) that the server
uses for created_at. -/
structure DBState where
  rows : List Row
  nextId : Int
  now : NaiveDateTime
deriving DecidableEq

/-- The INSERT of PostgresTodoRepo.create (todorepo.rs lines 29-43): a
new row with the request fields, a server-assigned id from the
sequence, the creation clock, and the status column filled by the table
default.  Modelled from the spec: the migrations folder holding the
todos table schema is not under src, and the spec says status defaults
to Pending at creation, which is the variant of code 0 (the source
enum's Status::Todo; the earlier exercise variant in
src/src/architecture.rs inserts Status::Todo.into() explicitly). -/
def dbInsertTodo (c : CreateTodo) (s : DBState) : Row × DBState :=
  let row : Row :=
    { id := s.nextId
      title := c.title
      description := some c.description
      created_at := s.now
      status := 0
      priority := c.priority.asI16
      deadline := c.deadline
      tags := c.tags }
  (row, { rows := s.rows ++ [row], nextId := s.nextId + 1, now := s.now })

/-- The SELECT ... WHERE id of get_by_id run through fetch_one
(todorepo.rs lines 58-68): the first row with the given id, or the
RowNotFound error when there is none. -/
def dbSelectById (i : Int) (s : DBState) : Except DbError Row :=
  match s.rows.find? (fun r => r.id == i) with
  | some r => .ok r
  | none => .error .rowNotFound

/-- The DELETE ... WHERE id of delete_by_id (todorepo.rs lines 83-86):
removes every row with the given id and reports rows_affected. -/
def dbDeleteById (i : Int) (s : DBState) : Nat × DBState :=
  ((s.rows.filter (fun r => r.id == i)).length,
   { s with rows := s.rows.filter (fun r => !(r.id == i)) })

/-- The UPDATE ... WHERE id ... RETURNING of update run through
fetch_one (todorepo.rs lines 118-135): replaces the mutable columns of
every row with the given id and returns the updated row, or the
RowNotFound error (and an unchanged table) when there is none.  Note
the status column receives the Rust as-cast of the status value. -/
def dbUpdateById (i : Int) (u : UpdateTodo) (s : DBState) :
    Except DbError Row × DBState :=
  let updRow : Row → Row := fun r =>
    if r.id == i then
      { r with
        title := u.title
        description := some u.description
        status := u.status.asI16
        priority := u.priority.asI16
        deadline := u.deadline
        tags := u.tags }
    else r
  match s.rows.find? (fun r => r.id == i) with
  | none => (.error .rowNotFound, s)
  | some r => (.ok (updRow r), { s with rows := s.rows.map updRow })

/-- The Todo construction every PostgresTodoRepo method performs on a
fetched row (todorepo.rs lines 45-55, 71-80, 104-114, 137-146): a null
description is coerced to the empty string with unwrap_or, and the
stored status and priority codes are decoded with Status::from and
Priority::from, which panic (none) on an invalid code. -/
def decodeRow (r : Row) : Option Todo :=
  match Status.fromI16 r.status, Priority.fromI16 r.priority with
  | some st, some pr =>
      some
        { id := ⟨r.id⟩
          title := r.title
          description := r.description.getD ""
          status := st
          priority := pr
          created_at := r.created_at
          deadline := r.deadline
          tags := r.tags }
  | _, _ => none

/-- The row-by-row decoding of get_all (todorepo.rs lines 102-114): the
whole call panics as soon as one row fails to decode. -/
def decodeRows : List Row → Option (List Todo)
  | [] => some []
  | r :: rest =>
    match decodeRow r, decodeRows rest with
    | some t, some ts => some (t :: ts)
    | _, _ => none

/-- What PostgresTodoRepo.create does with the result of its fetch_one
(todorepo.rs lines 28-55): unwrap panics on any database error,
otherwise the row is decoded (decoding itself can panic). -/
def PostgresTodoRepo.createHandler (fetch : Except DbError Row) :
    PResult Todo :=
  match fetch with
  | .error _ => .panicked
  | .ok row =>
    match decodeRow row with
    | some t => .ok t
    | none => .panicked

/-- What PostgresTodoRepo.get_by_id does with the result of its
fetch_one (todorepo.rs lines 57-80): the ok-question-mark chain turns
EVERY database error, RowNotFound or not, into None; a fetched row is
decoded (decoding can panic). -/
def PostgresTodoRepo.getByIdHandler (fetch : Except DbError Row) :
    PResult (Option Todo) :=
  match fetch with
  | .error _ => .ok none
  | .ok row =>
    match decodeRow row with
    | some t => .ok (some t)
    | none => .panicked

/-- What PostgresTodoRepo.delete_by_id does with the result of its
execute (todorepo.rs lines 82-89): unwrap panics on any database error,
otherwise the returned bool is rows_affected greater than zero. -/
def PostgresTodoRepo.deleteHandler (res : Except DbError Nat) :
    PResult Bool :=
  match res with
  | .error _ => .panicked
  | .ok n => .ok (decide (0 < n))

/-- What PostgresTodoRepo.get_all does with the result of its fetch_all
(todorepo.rs lines 91-115): unwrap panics on any database error,
otherwise every row is decoded (decoding can panic). -/
def PostgresTodoRepo.getAllHandler (res : Except DbError (List Row)) :
    PResult (List Todo) :=
  match res with
  | .error _ => .panicked
  | .ok rows =>
    match decodeRows rows with
    | some ts => .ok ts
    | none => .panicked

/-- What PostgresTodoRepo.update does with the result of its fetch_one
(todorepo.rs lines 117-147): as in get_by_id, the ok-question-mark
chain turns EVERY database error into None; a returned row is decoded
(decoding can panic). -/
def PostgresTodoRepo.updateHandler (fetch : Except DbError Row) :
    PResult (Option Todo) :=
  match fetch with
  | .error _ => .ok none
  | .ok row =>
    match decodeRow row with
    | some t => .ok (some t)
    | none => .panicked

/-- PostgresTodoRepo.create on a healthy connection: the INSERT runs
against the state and its returned row goes through the handler. -/
def PostgresTodoRepo.create (c : CreateTodo) (s : DBState) :
    PResult Todo × DBState :=
  let (row, s1) := dbInsertTodo c s
  (PostgresTodoRepo.createHandler (.ok row), s1)

/-- PostgresTodoRepo.get_by_id on a healthy connection. -/
def PostgresTodoRepo.get_by_id (i : TodoId) (s : DBState) :
    PResult (Option Todo) :=
  PostgresTodoRepo.getByIdHandler (dbSelectById i.val s)

/-- PostgresTodoRepo.delete_by_id on a healthy connection. -/
def PostgresTodoRepo.delete_by_id (i : TodoId) (s : DBState) :
    PResult Bool × DBState :=
  let (n, s1) := dbDeleteById i.val s
  (PostgresTodoRepo.deleteHandler (.ok n), s1)

/-- PostgresTodoRepo.get_all on a healthy connection. -/
def PostgresTodoRepo.get_all (s : DBState) : PResult (List Todo) :=
  PostgresTodoRepo.getAllHandler (.ok s.rows)

/-- PostgresTodoRepo.update on a healthy connection. -/
def PostgresTodoRepo.update (i : TodoId) (u : UpdateTodo) (s : DBState) :
    PResult (Option Todo) × DBState :=
  let (res, s1) := dbUpdateById i.val u s
  (PostgresTodoRepo.updateHandler res, s1)

/-- The error type of the async-openai client, as far as the todoai
code distinguishes it: an API error or any other transport failure. -/
inductive OpenAIErr where
  | apiError
  | transport
deriving DecidableEq

/-- Number of days of a month, Gregorian calendar with leap years, as
chrono validates a parsed date. -/
def daysInMonth (y m : Nat) : Nat :=
  if m = 2 then
    if y % 4 = 0 ∧ (y % 100 ≠ 0 ∨ y % 400 = 0) then 29 else 28
  else if m = 4 ∨ m = 6 ∨ m = 9 ∨ m = 11 then 30
  else 31

/-- Splits a character list at every dash, the grouping that parsing
the format year-month-day performs on the input. -/
def splitDashes (cs : List Char) : List (List Char) :=
  match cs with
  | [] => [[]]
  | c :: rest =>
    match splitDashes rest with
    | [] => [[c]]
    | g :: gs => if c = '-' then [] :: g :: gs else (c :: g) :: gs

/-- Value of a run of decimal digit characters. -/
def digitsToNat (cs : List Char) : Nat :=
  cs.foldl (fun a c => a * 10 + (c.toNat - 48)) 0

/-- chrono NaiveDate parsing with the fixed format of todoai.rs:
year, month and day as digit runs separated by single dashes, with the
calendar ranges validated.  Returns the date at midnight, which is what
and_hms_opt 0 0 0 produces. -/
def parseDateYMD (s : String) : Option NaiveDateTime :=
  match splitDashes s.data with
  | [ys, ms, ds] =>
    if ys.length = 4 ∧ 1 ≤ ms.length ∧ ms.length ≤ 2
        ∧ 1 ≤ ds.length ∧ ds.length ≤ 2
        ∧ ys.all Char.isDigit ∧ ms.all Char.isDigit ∧ ds.all Char.isDigit then
      let y := digitsToNat ys
      let m := digitsToNat ms
      let d := digitsToNat ds
      if 1 ≤ m ∧ m ≤ 12 ∧ 1 ≤ d ∧ d ≤ daysInMonth y m then
        some ⟨y, m, d, 0, 0, 0⟩
      else none
    else none
  | _ => none

/-- OpenAITodoAI.parse_date (todoai.rs lines 107-112): the Result of
the chrono parse is mapped and then UNWRAPPED, so a string that does
not match the date format panics instead of yielding None; a matching
string yields the date at midnight. -/
def OpenAITodoAI.parse_date (s : String) : PResult (Option NaiveDateTime) :=
  match parseDateYMD s with
  | some d => .ok (some d)
  | none => .panicked

/-- OpenAITodoAI.send_prompt (todoai.rs lines 44-104), embedded from
the transport outcome it receives: on success it returns the content of
the first choice (which the API may omit, hence the Option); on failure
it logs and returns the error unchanged. -/
def OpenAITodoAI.send_prompt
    (response : Except OpenAIErr (List (Option String))) :
    Except OpenAIErr (Option String) :=
  match response with
  | .ok choices => .ok ((choices.head?).bind id)
  | .error e => .error e

/-- OpenAITodoAI.infer_title (todoai.rs lines 124-137): the Result of
send_prompt is UNWRAPPED, so a transport failure panics; otherwise the
optional content is returned as is. -/
def OpenAITodoAI.infer_title
    (response : Except OpenAIErr (List (Option String))) :
    PResult (Option String) :=
  match OpenAITodoAI.send_prompt response with
  | .error _ => .panicked
  | .ok o => .ok o

/-- OpenAITodoAI.infer_deadline (todoai.rs lines 139-157): the Result
of send_prompt is UNWRAPPED (transport failure panics); an absent
content gives None; a present content goes through parse_date, which
itself panics on a string that does not match the date format. -/
def OpenAITodoAI.infer_deadline
    (response : Except OpenAIErr (List (Option String))) :
    PResult (Option NaiveDateTime) :=
  match OpenAITodoAI.send_prompt response with
  | .error _ => .panicked
  | .ok none => .ok none
  | .ok (some s) => OpenAITodoAI.parse_date s

/-- OpenAITodoAI.infer_priority (todoai.rs lines 159-175): the Result
of send_prompt is UNWRAPPED (transport failure panics); a present
content goes through From String for Priority, which panics on any
string other than the three exact variant names. -/
def OpenAITodoAI.infer_priority
    (response : Except OpenAIErr (List (Option String))) :
    PResult (Option Priority) :=
  match OpenAITodoAI.send_prompt response with
  | .error _ => .panicked
  | .ok none => .ok none
  | .ok (some s) =>
    match Priority.fromString s with
    | some p => .ok (some p)
    | none => .panicked

/-- OpenAITodoAI.infer_tags (todoai.rs lines 177-189): same shape as
infer_title. -/
def OpenAITodoAI.infer_tags
    (response : Except OpenAIErr (List (Option String))) :
    PResult (Option String) :=
  match OpenAITodoAI.send_prompt response with
  | .error _ => .panicked
  | .ok o => .ok o

/-- The TodoRepo trait (todorepo.rs lines 7-13) as an interface record:
LiveTodoService is generic over it. -/
structure TodoRepoI where
  create : CreateTodo → DBState → PResult Todo × DBState
  get_by_id : TodoId → DBState → PResult (Option Todo)
  delete_by_id : TodoId → DBState → PResult Bool × DBState
  get_all : DBState → PResult (List Todo)
  update : TodoId → UpdateTodo → DBState → PResult (Option Todo) × DBState

/-- The PostgresTodoRepo implementation packaged as the interface. -/
def PostgresTodoRepo.repo : TodoRepoI :=
  { create := PostgresTodoRepo.create
    get_by_id := PostgresTodoRepo.get_by_id
    delete_by_id := PostgresTodoRepo.delete_by_id
    get_all := PostgresTodoRepo.get_all
    update := PostgresTodoRepo.update }

/-- The four inference operations of the TodoAI trait (todoai.rs lines
11-18) as an interface record of result-producing functions of the
description text; each result is a PResult because the concrete
OpenAITodoAI implementation can panic. -/
structure TodoAII where
  infer_title : String → PResult (Option String)
  infer_deadline : String → PResult (Option NaiveDateTime)
  infer_priority : String → PResult (Option Priority)
  infer_tags : String → PResult (Option String)

/-- LiveTodoService.create (todoservice.rs lines 28-47): infers title,
deadline, priority and tags from the description in that order, and
UNWRAPS the title, priority and tags options, panicking when any of the
three is absent; only the deadline option is kept as is.  A panic in
any inference call propagates.  When all unwraps succeed, the assembled
CreateTodo goes to the repository. -/
def LiveTodoService.create (repo : TodoRepoI) (ai : TodoAII)
    (description : String) (s : DBState) : PResult Todo × DBState :=
  match ai.infer_title description with
  | .panicked => (.panicked, s)
  | .ok none => (.panicked, s)
  | .ok (some title) =>
    match ai.infer_deadline description with
    | .panicked => (.panicked, s)
    | .ok deadline =>
      match ai.infer_priority description with
      | .panicked => (.panicked, s)
      | .ok none => (.panicked, s)
      | .ok (some priority) =>
        match ai.infer_tags description with
        | .panicked => (.panicked, s)
        | .ok none => (.panicked, s)
        | .ok (some tags) =>
          repo.create
            { title := title
              description := description
              priority := priority
              deadline := deadline
              tags := tags } s

/-- LiveTodoService.get_by_id (todoservice.rs lines 49-51): forwards to
the repository. -/
def LiveTodoService.get_by_id (repo : TodoRepoI) (i : TodoId)
    (s : DBState) : PResult (Option Todo) :=
  repo.get_by_id i s

/-- LiveTodoService.delete_by_id (todoservice.rs lines 53-55): forwards
to the repository. -/
def LiveTodoService.delete_by_id (repo : TodoRepoI) (i : TodoId)
    (s : DBState) : PResult Bool × DBState :=
  repo.delete_by_id i s

/-- LiveTodoService.get_all (todoservice.rs lines 57-59): forwards to
the repository. -/
def LiveTodoService.get_all (repo : TodoRepoI) (s : DBState) :
    PResult (List Todo) :=
  repo.get_all s

/-- LiveTodoService.update (todoservice.rs lines 61-63): forwards to
the repository. -/
def LiveTodoService.update (repo : TodoRepoI) (i : TodoId)
    (u : UpdateTodo) (s : DBState) : PResult (Option Todo) × DBState :=
  repo.update i u s

/-- A TodoAI implementation whose four inference operations all return
absent (no panic): the all-absent scenario of the creation flow. -/
def allAbsentAI : TodoAII :=
  { infer_title := fun _ => .ok none
    infer_deadline := fun _ => .ok none
    infer_priority := fun _ => .ok none
    infer_tags := fun _ => .ok none }

/-- Whether the store holds a row with the given id. -/
def hasId (i : Int) (s : DBState) : Bool :=
  s.rows.any (fun r => r.id == i)

/-- The priority as-cast decodes back to the same variant: the
discriminants Low 0, Medium 1, High 2 are inside the decoded range. -/
theorem Priority.fromI16_asI16 (p : Priority) :
    Priority.fromI16 (Priority.asI16 p) = some p := by
  cases p <;> rfl

/-- Decoding a row never invents a description: the description field
of the produced Todo is exactly the stored description with null
coerced to the empty string. -/
theorem decodeRow_description (row : Row) (t : Todo)
    (h : decodeRow row = some t) :
    t.description = row.description.getD "" := by
  unfold decodeRow at h
  rcases hs : Status.fromI16 row.status with _ | st <;> rw [hs] at h
  · simp at h
  · rcases hp : Priority.fromI16 row.priority with _ | pr <;> rw [hp] at h
    · simp at h
    · simp only [Option.some.injEq] at h
      rw [← h]

/-- Every Todo produced by the row-by-row decoding of get_all comes
from some row of the input list. -/
theorem decodeRows_mem (rows : List Row) (ts : List Todo)
    (h : decodeRows rows = some ts) :
    ∀ x ∈ ts, ∃ r ∈ rows, decodeRow r = some x := by
  induction rows generalizing ts with
  | nil =>
    simp only [decodeRows, Option.some.injEq] at h
    subst h; intro x hx; cases hx
  | cons r rest ih =>
    unfold decodeRows at h
    rcases h1 : decodeRow r with _ | t <;> rw [h1] at h
    · simp at h
    · rcases h2 : decodeRows rest with _ | ts1 <;> rw [h2] at h
      · simp at h
      · simp only [Option.some.injEq] at h
        subst h
        intro x hx
        rcases List.mem_cons.mp hx with hx | hx
        · exact ⟨r, List.mem_cons_self r rest, hx ▸ h1⟩
        · obtain ⟨r1, hr1, hd1⟩ := ih ts1 h2 x hx
          exact ⟨r1, List.mem_cons_of_mem r hr1, hd1⟩

/-- C4: for every defined Status variant and every defined Priority
variant, decoding the integer code the variant encodes to yields the
original variant back. -/
theorem enum_roundtrip :
    (∀ st : Status, Status.fromI16 (Status.toI16 st) = some st)
    ∧ (∀ p : Priority, Priority.fromI16 (Priority.toI16 p) = some p) := by
  constructor
  · intro st; cases st <;> rfl
  · intro p; cases p <;> rfl

/-- C5 counterexample: the Status encoding does not land in codes of
the form 0,1,2,...: the Aborted variant encodes to the negative code
-1, so the claim that the codes are 0,1,2,... is false at the concrete
input Status.Aborted. -/
theorem status_aborted_code_negative : Status.toI16 Status.Aborted < 0 := by
  decide

/-- C5 amended: both encodings are injective; Priority encodes onto the
codes 0,1,2 while Status encodes onto -1,0,1,2 (Aborted carries the
negative code -1, not a code of the form 0,1,2,...); and decoding any
integer outside the respective encoded range panics (none), never
returning a recoverable result. -/
theorem enum_codes_bijective_out_of_range_panics :
    (∀ a b : Status, Status.toI16 a = Status.toI16 b → a = b)
    ∧ (∀ a b : Priority, Priority.toI16 a = Priority.toI16 b → a = b)
    ∧ (∀ st : Status, Status.fromI16 (Status.toI16 st) = some st)
    ∧ (∀ p : Priority, Priority.fromI16 (Priority.toI16 p) = some p)
    ∧ (∀ i : Int, i ≠ 0 → i ≠ 1 → i ≠ 2 → i ≠ -1 → Status.fromI16 i = none)
    ∧ (∀ i : Int, i ≠ 0 → i ≠ 1 → i ≠ 2 → Priority.fromI16 i = none) := by
  refine ⟨?_, ?_, ?_, ?_, ?_, ?_⟩
  · intro a b h; cases a <;> cases b <;> first | rfl | exact absurd h (by decide)
  · intro a b h; cases a <;> cases b <;> first | rfl | exact absurd h (by decide)
  · intro st; cases st <;> rfl
  · intro p; cases p <;> rfl
  · intro i h0 h1 h2 hm; simp [Status.fromI16, h0, h1, h2, hm]
  · intro i h0 h1 h2; simp [Priority.fromI16, h0, h1, h2]

/-- Witness for the amended C5 theorem at concrete inputs: the
injectivity applied at Done and Done, and the out-of-range decodes at
the concrete codes 5 and -3 both panic. -/
theorem enum_codes_bijective_out_of_range_panics_witness :
    Status.Done = Status.Done ∧ Status.fromI16 5 = none
    ∧ Priority.fromI16 (-3) = none :=
  ⟨enum_codes_bijective_out_of_range_panics.1 Status.Done Status.Done (by decide),
   enum_codes_bijective_out_of_range_panics.2.2.2.2.1 5 (by decide) (by decide)
     (by decide) (by decide),
   enum_codes_bijective_out_of_range_panics.2.2.2.2.2 (-3) (by decide) (by decide)
     (by decide)⟩

/-- C2 counterexample: the claim that get_by_id and update never return
the absent result when the store access fails is false at the concrete
failing fetches: a connectivity failure in get_by_id and a constraint
failure in update are both coerced to the absent result (ok none), not
propagated. -/
theorem store_error_coerced_to_absent :
    PostgresTodoRepo.getByIdHandler (.error .connectivity) = .ok none
    ∧ PostgresTodoRepo.updateHandler (.error .constraint) = .ok none :=
  ⟨rfl, rfl⟩

/-- C2 amended: create, delete_by_id and get_all propagate every
backing-store failure to the caller (the operation panics via unwrap
rather than returning a result), but get_by_id and update coerce every
store failure, connectivity and constraint failures included, into the
absent result. -/
theorem repo_failure_semantics (e : DbError) :
    PostgresTodoRepo.createHandler (.error e) = .panicked
    ∧ PostgresTodoRepo.deleteHandler (.error e) = .panicked
    ∧ PostgresTodoRepo.getAllHandler (.error e) = .panicked
    ∧ PostgresTodoRepo.getByIdHandler (.error e) = .ok none
    ∧ PostgresTodoRepo.updateHandler (.error e) = .ok none :=
  ⟨rfl, rfl, rfl, rfl, rfl⟩

/-- C1: evaluating the creation flow at the failing input: with every
one of the four inference operations returning absent, the Todo
Service's create panics (the unwrap of the absent title) for every
description and every store state, instead of succeeding with
substituted defaults as the spec requires. -/
theorem create_all_absent_inference_panics (description : String)
    (s : DBState) :
    LiveTodoService.create PostgresTodoRepo.repo allAbsentAI description s
      = (.panicked, s) := rfl

/-- C3: evaluating the inference operations at failing inputs: a
transport failure in infer_title or infer_tags panics (the unwrap of
the send_prompt result); a response not matching the date grammar
panics inside parse_date; a response not matching the exact Priority
enum names panics inside the From String conversion.  The spec requires
absent in all four cases. -/
theorem inference_failure_panics :
    OpenAITodoAI.infer_title (.error .transport) = .panicked
    ∧ OpenAITodoAI.infer_deadline (.ok [some "tomorrow"]) = .panicked
    ∧ OpenAITodoAI.infer_priority (.ok [some "urgent"]) = .panicked
    ∧ OpenAITodoAI.infer_tags (.error .apiError) = .panicked :=
  ⟨rfl, by decide, by decide, rfl⟩

/-- C9: for every repository implementation, id, update request and
store state, the Todo Service's get_by_id, delete_by_id, get_all and
update return exactly the result of the corresponding Repository
operation on the same arguments, with no transformation. -/
theorem service_pass_through (repo : TodoRepoI) (i : TodoId)
    (u : UpdateTodo) (s : DBState) :
    LiveTodoService.get_by_id repo i s = repo.get_by_id i s
    ∧ LiveTodoService.delete_by_id repo i s = repo.delete_by_id i s
    ∧ LiveTodoService.get_all repo s = repo.get_all s
    ∧ LiveTodoService.update repo i u s = repo.update i u s :=
  ⟨rfl, rfl, rfl, rfl⟩

/-- C6: deleting an id that has a record returns true, deleting it
again returns false and leaves the store where the first delete left
it, and get_by_id of that id returns absent after the first delete;
deleting an id with no record returns false (not an error) and leaves
the store unchanged. -/
theorem delete_by_id_idempotent (i : TodoId) (s : DBState) :
    (hasId i.val s = true →
      (PostgresTodoRepo.delete_by_id i s).1 = .ok true
      ∧ (PostgresTodoRepo.delete_by_id i
          (PostgresTodoRepo.delete_by_id i s).2).1 = .ok false
      ∧ (PostgresTodoRepo.delete_by_id i
          (PostgresTodoRepo.delete_by_id i s).2).2
          = (PostgresTodoRepo.delete_by_id i s).2
      ∧ PostgresTodoRepo.get_by_id i (PostgresTodoRepo.delete_by_id i s).2
          = .ok none)
    ∧ (hasId i.val s = false →
      (PostgresTodoRepo.delete_by_id i s).1 = .ok false
      ∧ (PostgresTodoRepo.delete_by_id i s).2 = s) := by
  constructor
  · intro h
    obtain ⟨x, hx, hpx⟩ := List.any_eq_true.mp h
    have hn : 0 < (s.rows.filter (fun r => r.id == i.val)).length :=
      List.length_pos.mpr (List.ne_nil_of_mem (List.mem_filter.mpr ⟨hx, hpx⟩))
    have hfilter2 : (s.rows.filter (fun r => !(r.id == i.val))).filter
        (fun r => r.id == i.val) = [] := by
      rw [List.filter_eq_nil_iff]
      intro a ha
      have h2 := (List.mem_filter.mp ha).2
      simp at h2 ⊢
      exact h2
    have hidem : (s.rows.filter (fun r => !(r.id == i.val))).filter
        (fun r => !(r.id == i.val))
        = s.rows.filter (fun r => !(r.id == i.val)) := by
      rw [List.filter_eq_self]
      intro a ha
      exact (List.mem_filter.mp ha).2
    have hfind : (s.rows.filter (fun r => !(r.id == i.val))).find?
        (fun r => r.id == i.val) = none := by
      rw [List.find?_eq_none]
      intro a ha
      have h2 := (List.mem_filter.mp ha).2
      simp at h2 ⊢
      exact h2
    refine ⟨?_, ?_, ?_, ?_⟩
    · simp [PostgresTodoRepo.delete_by_id, dbDeleteById,
        PostgresTodoRepo.deleteHandler]
      exact hn
    · simp [PostgresTodoRepo.delete_by_id, dbDeleteById,
        PostgresTodoRepo.deleteHandler, hfilter2]
    · simp [PostgresTodoRepo.delete_by_id, dbDeleteById, hidem]
    · simp [PostgresTodoRepo.get_by_id, dbSelectById,
        PostgresTodoRepo.delete_by_id, dbDeleteById, hfind,
        PostgresTodoRepo.getByIdHandler]
  · intro h
    have hall := List.any_eq_false.mp h
    have hfe : s.rows.filter (fun r => r.id == i.val) = [] := by
      rw [List.filter_eq_nil_iff]
      exact hall
    have hfs : s.rows.filter (fun r => !(r.id == i.val)) = s.rows := by
      rw [List.filter_eq_self]
      intro a ha
      simp
      have h2 := hall a ha
      simpa using h2
    constructor
    · simp [PostgresTodoRepo.delete_by_id, dbDeleteById,
        PostgresTodoRepo.deleteHandler, hfe]
    · simp [PostgresTodoRepo.delete_by_id, dbDeleteById, hfs]

/-- C7: updating an id that has no record returns absent and performs
no mutation: the store state is returned unchanged, so in particular an
unrelated get_all afterwards returns exactly what it returned before
(same list, hence same count). -/
theorem update_absent_id_no_mutation (i : TodoId) (u : UpdateTodo)
    (s : DBState) (h : hasId i.val s = false) :
    LiveTodoService.update PostgresTodoRepo.repo i u s = (.ok none, s)
    ∧ LiveTodoService.get_all PostgresTodoRepo.repo
        ((LiveTodoService.update PostgresTodoRepo.repo i u s).2)
      = LiveTodoService.get_all PostgresTodoRepo.repo s := by
  have hall := List.any_eq_false.mp h
  have hfind : s.rows.find? (fun r => r.id == i.val) = none :=
    List.find?_eq_none.mpr hall
  have h1 : LiveTodoService.update PostgresTodoRepo.repo i u s
      = (.ok none, s) := by
    simp [LiveTodoService.update, PostgresTodoRepo.repo,
      PostgresTodoRepo.update, dbUpdateById, hfind,
      PostgresTodoRepo.updateHandler]
  exact ⟨h1, by rw [h1]⟩

/-- C8: under the store invariant that the id sequence is above every
stored id, create returns ok with the fully materialized record: the
request fields unchanged, the status defaulted to the Pending variant
(the source enum's Status.Todo, code 0), the creation clock as
created_at, and the fresh sequence id, which differs from every
existing id; exactly one row is appended, every prior row is kept, and
the invariant is preserved. -/
theorem create_assigns_fresh_id_and_defaults (c : CreateTodo)
    (s : DBState) (h : ∀ r ∈ s.rows, r.id < s.nextId) :
    (PostgresTodoRepo.create c s).1
      = .ok { id := ⟨s.nextId⟩, title := c.title,
              description := c.description, status := Status.Todo,
              priority := c.priority, created_at := s.now,
              deadline := c.deadline, tags := c.tags }
    ∧ (∀ r ∈ s.rows, r.id ≠ s.nextId)
    ∧ (PostgresTodoRepo.create c s).2.rows.length = s.rows.length + 1
    ∧ (∀ r ∈ s.rows, r ∈ (PostgresTodoRepo.create c s).2.rows)
    ∧ (∀ r ∈ (PostgresTodoRepo.create c s).2.rows,
        r.id < (PostgresTodoRepo.create c s).2.nextId) := by
  refine ⟨?_, ?_, ?_, ?_, ?_⟩
  · have hp := Priority.fromI16_asI16 c.priority
    simp [PostgresTodoRepo.create, dbInsertTodo,
      PostgresTodoRepo.createHandler, decodeRow, hp, Status.fromI16]
  · intro r hr
    exact Int.ne_of_lt (h r hr)
  · simp [PostgresTodoRepo.create, dbInsertTodo]
  · intro r hr
    simp [PostgresTodoRepo.create, dbInsertTodo]
    exact Or.inl hr
  · intro r hr
    simp only [PostgresTodoRepo.create, dbInsertTodo, List.mem_append,
      List.mem_singleton] at hr ⊢
    rcases hr with hr | hr
    · have := h r hr
      omega
    · subst hr
      show s.nextId < s.nextId + 1
      omega

/-- C10: every Todo a repository read path hands back carries as its
description the stored description with null coerced to the empty
string (so the field is always a string, never an absence signal):
shown for the get_by_id, create and update handlers on any fetched row,
and for the get_all handler on any fetched row list. -/
theorem repo_description_never_null (row : Row) (t : Todo)
    (rows : List Row) (ts : List Todo) :
    (PostgresTodoRepo.getByIdHandler (.ok row) = .ok (some t) →
        t.description = row.description.getD "")
    ∧ (PostgresTodoRepo.createHandler (.ok row) = .ok t →
        t.description = row.description.getD "")
    ∧ (PostgresTodoRepo.updateHandler (.ok row) = .ok (some t) →
        t.description = row.description.getD "")
    ∧ (PostgresTodoRepo.getAllHandler (.ok rows) = .ok ts →
        ∀ x ∈ ts, ∃ r ∈ rows, x.description = r.description.getD "") := by
  refine ⟨?_, ?_, ?_, ?_⟩
  · intro h
    simp only [PostgresTodoRepo.getByIdHandler] at h
    rcases hd : decodeRow row with _ | t1 <;> rw [hd] at h
    · simp at h
    · simp only [PResult.ok.injEq, Option.some.injEq] at h
      exact h ▸ decodeRow_description row t1 hd
  · intro h
    simp only [PostgresTodoRepo.createHandler] at h
    rcases hd : decodeRow row with _ | t1 <;> rw [hd] at h
    · simp at h
    · simp only [PResult.ok.injEq] at h
      exact h ▸ decodeRow_description row t1 hd
  · intro h
    simp only [PostgresTodoRepo.updateHandler] at h
    rcases hd : decodeRow row with _ | t1 <;> rw [hd] at h
    · simp at h
    · simp only [PResult.ok.injEq, Option.some.injEq] at h
      exact h ▸ decodeRow_description row t1 hd
  · intro h x hx
    simp only [PostgresTodoRepo.getAllHandler] at h
    rcases hd : decodeRows rows with _ | ts1 <;> rw [hd] at h
    · simp at h
    · simp only [PResult.ok.injEq] at h
      subst h
      obtain ⟨r, hr, hdr⟩ := decodeRows_mem rows ts1 hd x hx
      exact ⟨r, hr, decodeRow_description r x hdr⟩

/-- Unix epoch at midnight, a concrete clock value. -/
def epoch : NaiveDateTime := ⟨1970, 1, 1, 0, 0, 0⟩

/-- An empty store whose id sequence starts at 1. -/
def emptyState : DBState := ⟨[], 1, epoch⟩

/-- A concrete stored row with a null description. -/
def sampleRow : Row := ⟨1, "buy milk", none, epoch, 0, 1, none, "errand"⟩

/-- A store holding the one sample row. -/
def sampleState : DBState := ⟨[sampleRow], 2, epoch⟩

/-- A concrete update request. -/
def sampleUpdate : UpdateTodo := ⟨"t", "d", .Done, .Low, none, "g"⟩

/-- A concrete create request. -/
def sampleCreate : CreateTodo := ⟨"buy milk", "get milk", .Low, none, "errand"⟩

/-- The Todo the sample row decodes to: its description is the empty
string, coerced from the null stored description. -/
def sampleTodoNull : Todo :=
  ⟨⟨1⟩, "buy milk", "", .Todo, .Medium, epoch, none, "errand"⟩

/-- Witness for C6 at the concrete one-row store: id 1 is present,
the first delete returns true, the second false, and get_by_id of 1
after the first delete is absent. -/
theorem delete_by_id_idempotent_witness :
    hasId 1 sampleState = true
    ∧ (PostgresTodoRepo.delete_by_id ⟨1⟩ sampleState).1 = .ok true
    ∧ (PostgresTodoRepo.delete_by_id ⟨1⟩
        (PostgresTodoRepo.delete_by_id ⟨1⟩ sampleState).2).1 = .ok false
    ∧ PostgresTodoRepo.get_by_id ⟨1⟩
        (PostgresTodoRepo.delete_by_id ⟨1⟩ sampleState).2 = .ok none := by
  have h := (delete_by_id_idempotent ⟨1⟩ sampleState).1 (by decide)
  exact ⟨by decide, h.1, h.2.1, h.2.2.2⟩

/-- Witness for C7 at the concrete empty store: id 7 is absent and the
update returns absent with the store unchanged. -/
theorem update_absent_id_no_mutation_witness :
    hasId 7 emptyState = false
    ∧ LiveTodoService.update PostgresTodoRepo.repo ⟨7⟩ sampleUpdate
        emptyState = (.ok none, emptyState) :=
  ⟨by decide,
   (update_absent_id_no_mutation ⟨7⟩ sampleUpdate emptyState (by decide)).1⟩

/-- Witness for C8 at the concrete empty store: the invariant holds
vacuously and create returns the fully materialized record with the
fresh id 1, Pending status and the creation clock. -/
theorem create_assigns_fresh_id_and_defaults_witness :
    (∀ r ∈ emptyState.rows, r.id < emptyState.nextId)
    ∧ (PostgresTodoRepo.create sampleCreate emptyState).1
        = .ok { id := ⟨1⟩, title := "buy milk", description := "get milk",
                status := Status.Todo, priority := Priority.Low,
                created_at := epoch, deadline := none, tags := "errand" } := by
  refine ⟨by simp [emptyState], ?_⟩
  have h := (create_assigns_fresh_id_and_defaults sampleCreate emptyState
    (by simp [emptyState])).1
  simpa [sampleCreate, emptyState] using h

/-- Witness for C10 at the concrete row with a null description: the
get_by_id handler returns the decoded Todo and its description is the
empty string. -/
theorem repo_description_never_null_witness :
    PostgresTodoRepo.getByIdHandler (.ok sampleRow)
      = .ok (some sampleTodoNull)
    ∧ sampleTodoNull.description = "" := by
  refine ⟨by decide, ?_⟩
  have h := (repo_description_never_null sampleRow sampleTodoNull [] []).1
    (by decide)
  simpa [sampleRow] using h
